import Mathlib

/-!
Shallow embedding of the `publiclinks` service (src/main.py, src/dub.py,
src/database.py, src/r2.py): the file-record lifecycle coordinator, the
short-link adapter with its key-normalization function, and the record
store, together with proofs about the claims of the specification.

External effects (the R2 blob store, the dub.co HTTP API, the random
unique id, the clock) are modelled as explicit oracle parameters, and
every operation additionally returns the list of external calls it made
(`Event` trace), so that ordering and absence of calls can be stated.
-/

namespace PublicLinks

/-! ### Python truthiness for optional strings

`os.getenv` returns `None` when unset; `if not X` treats both `None` and
the empty string as falsy. -/

def truthy : Option String → Bool
  | none => false
  | some s => s != ""

/-! ### `dub.sanitize_key` (src/dub.py lines 9-29)

The pipeline is, in source order: `os.path.splitext(key)[0]`, then
`re.sub(r'[^a-zA-Z0-9-]', '-', key)`, then `re.sub(r'-+', '-', key)`,
then `key.strip('-')`, then `key.lower()`, then `key[:50]`. -/

/-- `str.rfind(c)` : index of the last occurrence of `c`, or `-1`. -/
def rfindChar (l : List Char) (c : Char) : Int :=
  match l.reverse.findIdx? (fun x => x = c) with
  | some i => (l.length : Int) - 1 - (i : Int)
  | none => -1

/-- The root part of `os.path.splitext` (posixpath: split at the last dot,
except that dots leading the basename — after the last `/` — never start
an extension). -/
def splitextRoot (p : List Char) : List Char :=
  let sepIndex : Int := rfindChar p '/'
  let dotIndex : Int := rfindChar p '.'
  if sepIndex < dotIndex then
    let lo : Nat := (sepIndex + 1).toNat
    if ((p.drop lo).take (dotIndex.toNat - lo)).any (fun ch => ch != '.') then
      p.take dotIndex.toNat
    else p
  else p

/-- Membership in the regex class `[a-zA-Z0-9-]`, via code points. -/
def isKeyChar (c : Char) : Bool :=
  (97 ≤ c.toNat && c.toNat ≤ 122) || (65 ≤ c.toNat && c.toNat ≤ 90) ||
    (48 ≤ c.toNat && c.toNat ≤ 57) || c = '-'

/-- `re.sub(r'[^a-zA-Z0-9-]', '-', key)`. -/
def replaceSpecial (l : List Char) : List Char :=
  l.map (fun c => if isKeyChar c then c else '-')

/-- `re.sub(r'-+', '-', key)` : collapse every run of hyphens to one. -/
def collapseHyphens : List Char → List Char
  | [] => []
  | [c] => [c]
  | a :: b :: rest =>
    if a = '-' && b = '-' then collapseHyphens (b :: rest)
    else a :: collapseHyphens (b :: rest)

/-- `key.strip('-')`. -/
def stripHyphens (l : List Char) : List Char :=
  (((l.dropWhile (fun c => c = '-')).reverse.dropWhile (fun c => c = '-'))).reverse

/-- `str.lower()` on the characters that can occur at that point of the
pipeline (every character is already in `[A-Za-z0-9-]`, so only ASCII
uppercase letters are affected). -/
def asciiLower (c : Char) : Char :=
  if 65 ≤ c.toNat && c.toNat ≤ 90 then Char.ofNat (c.toNat + 32) else c

def sanitizeChars (key : List Char) : List Char :=
  ((stripHyphens (collapseHyphens (replaceSpecial (splitextRoot key)))).map asciiLower).take 50

/-- `dub.sanitize_key`. -/
def sanitize_key (s : String) : String :=
  String.mk (sanitizeChars s.data)

/-! ### Python `str.strip()` (whitespace), used by `update_file_link` -/

def isPySpace (c : Char) : Bool :=
  c = ' ' || c = '\t' || c = '\n' || c = '\r' || c.toNat = 11 || c.toNat = 12

def pyStrip (s : String) : String :=
  String.mk (((s.data.dropWhile isPySpace).reverse.dropWhile isPySpace).reverse)

/-- Python `str.endswith(suf)` : the last `|suf|` characters equal `suf`. -/
def pyEndsWith (s suf : String) : Bool :=
  s.data.reverse.take suf.data.length == suf.data.reverse

/-! ### Data model (src/database.py, `files` table) -/

structure FileRecord where
  id : Nat
  user_id : String
  filename : String
  r2_key : String
  dub_url : Option String
  dub_link_id : Option String
  dub_key : Option String
  content_type : String
  size_bytes : Nat
  created_at : Nat
deriving Repr, DecidableEq

/-- The `files` table plus the AUTOINCREMENT counter. -/
structure DBState where
  files : List FileRecord
  nextId : Nat
deriving Repr, DecidableEq

/-- `database.create_file` : INSERT with `dub_url`, `dub_link_id`,
`dub_key` all NULL (the coordinator never passes `dub_url`), returning
the inserted row. -/
def DBState.create_file (db : DBState) (user_id filename r2_key content_type : String)
    (size_bytes : Nat) (now : Nat) : FileRecord × DBState :=
  let f : FileRecord :=
    { id := db.nextId, user_id := user_id, filename := filename, r2_key := r2_key,
      dub_url := none, dub_link_id := none, dub_key := none,
      content_type := content_type, size_bytes := size_bytes, created_at := now }
  (f, { files := db.files ++ [f], nextId := db.nextId + 1 })

/-- `database.get_file_by_id` : SELECT * FROM files WHERE id = ?. -/
def DBState.get_file_by_id (db : DBState) (file_id : Nat) : Option FileRecord :=
  db.files.find? (fun f => f.id = file_id)

/-- `database.get_file_by_r2_key`. -/
def DBState.get_file_by_r2_key (db : DBState) (r2_key : String) : Option FileRecord :=
  db.files.find? (fun f => f.r2_key = r2_key)

/-- `database.delete_file` : DELETE WHERE id = ?, returning
`rowcount > 0`. -/
def DBState.delete_file (db : DBState) (file_id : Nat) : Bool × DBState :=
  (db.files.any (fun f => f.id = file_id),
   { db with files := db.files.filter (fun f => f.id ≠ file_id) })

/-- `database.update_file_dub_url` : UPDATE files SET dub_url = ?,
dub_link_id = ?, dub_key = ? WHERE id = ?. -/
def DBState.update_file_dub_url (db : DBState) (file_id : Nat) (dub_url : String)
    (dub_link_id dub_key : Option String) : DBState :=
  { db with
    files := db.files.map (fun f =>
      if f.id = file_id then
        { f with dub_url := some dub_url, dub_link_id := dub_link_id, dub_key := dub_key }
      else f) }

/-- `database.update_file_dub_link` : UPDATE files SET dub_url = ?,
dub_key = ? WHERE id = ? (note: `dub_link_id` is not touched). -/
def DBState.update_file_dub_link (db : DBState) (file_id : Nat) (dub_url dub_key : String) :
    DBState :=
  { db with
    files := db.files.map (fun f =>
      if f.id = file_id then { f with dub_url := some dub_url, dub_key := some dub_key }
      else f) }

/-- The §3 invariant: a record's short-link provider id and short-link
key are both present or both absent. -/
def linkInv (f : FileRecord) : Bool := f.dub_link_id.isSome == f.dub_key.isSome

/-- Membership in `[a-z0-9-]` (lowercase letters, digits, hyphen), via
code points. -/
def isLowerKeyChar (c : Char) : Bool :=
  (97 ≤ c.toNat && c.toNat ≤ 122) || (48 ≤ c.toNat && c.toNat ≤ 57) || c = '-'

/-! ### External-call traces -/

/-- The JSON payload of `POST https://api.dub.co/links`: always `url` and
`domain`; `key` only when the raw key argument was truthy. -/
structure DubCreatePayload where
  url : String
  domain : String
  key : Option String
deriving Repr, DecidableEq

inductive Event where
  | r2Put (key : String)
  | r2Get (key : String)
  | r2Delete (key : String)
  | dubPost (payload : DubCreatePayload)
  | dubPatch (link_id : String) (key : String)
  | dubDeleteCall (link_id : String)
  | dbCreate (file_id : Nat)
  | dbUpdateDubUrl (file_id : Nat)
  | dbUpdateDubLink (file_id : Nat)
  | dbDelete (file_id : Nat)
deriving Repr, DecidableEq

def Event.isDubCall : Event → Bool
  | .dubPost _ => true
  | .dubPatch _ _ => true
  | .dubDeleteCall _ => true
  | _ => false

def Event.isDbWrite : Event → Bool
  | .dbCreate _ => true
  | .dbUpdateDubUrl _ => true
  | .dbUpdateDubLink _ => true
  | .dbDelete _ => true
  | _ => false

/-! ### Short-link adapter (src/dub.py)

`DUB_API_KEY` / `DUB_DOMAIN` come from the environment; the HTTP
responses of the provider are oracle parameters. -/

structure DubConfig where
  apiKey : Option String
  domain : Option String
deriving Repr, DecidableEq

def DubConfig.configured (cfg : DubConfig) : Bool :=
  truthy cfg.apiKey && truthy cfg.domain

/-- A 200/201 response body of the provider on link creation, with the
three fields the adapter projects out present. -/
structure DubLinkResult where
  shortLink : String
  id : String
  key : String
deriving Repr, DecidableEq

/-- Oracle for the provider's answer to a create call: `ok` is a 200/201
response, `err` is any non-2xx status or raised exception. -/
inductive DubCreateResponse where
  | ok (data : DubLinkResult)
  | err
deriving Repr, DecidableEq

structure DubUpdateResult where
  shortLink : String
  key : String
deriving Repr, DecidableEq

/-- Oracle for the provider's answer to a PATCH (rekey) call. -/
inductive DubUpdateResponse where
  | ok (data : DubUpdateResult)
  | err
deriving Repr, DecidableEq

/-- `dub.create_short_link(url, key)` : returns the parsed result (or
`None`) and the network calls made.  When unconfigured it returns `None`
with no call.  Note the payload includes `"key": sanitize_key(key)`
whenever the *raw* `key` is truthy — the sanitized key is not checked
for emptiness here. -/
def create_short_link (cfg : DubConfig) (resp : DubCreateResponse) (url : String)
    (key : Option String) : Option DubLinkResult × List Event :=
  if !(truthy cfg.apiKey) || !(truthy cfg.domain) then (none, [])
  else
    let payload : DubCreatePayload :=
      { url := url, domain := cfg.domain.getD "",
        key := if truthy key then some (sanitize_key (key.getD "")) else none }
    match resp with
    | .ok data => (some data, [Event.dubPost payload])
    | .err => (none, [Event.dubPost payload])

/-- `dub.update_short_link(link_id, new_key)` : returns `None` without a
network call when unconfigured or when `sanitize_key(new_key)` is empty;
otherwise PATCHes the provider. -/
def update_short_link (cfg : DubConfig) (resp : DubUpdateResponse) (link_id : String)
    (new_key : String) : Option DubUpdateResult × List Event :=
  if !(truthy cfg.apiKey) || !(truthy cfg.domain) then (none, [])
  else
    let sanitized_key := sanitize_key new_key
    if sanitized_key = "" then (none, [])
    else
      match resp with
      | .ok data => (some data, [Event.dubPatch link_id sanitized_key])
      | .err => (none, [Event.dubPatch link_id sanitized_key])

/-- `dub.delete_short_link(link_id)` : `True` without a call when the API
key is falsy or `link_id` is falsy; otherwise DELETEs (the returned
bool is ignored by the coordinator). -/
def delete_short_link (cfg : DubConfig) (respOk : Bool) (link_id : String) :
    Bool × List Event :=
  if !(truthy cfg.apiKey) || link_id = "" then (true, [])
  else (respOk, [Event.dubDeleteCall link_id])

/-! ### Blob store adapter (src/r2.py)

Whether each call succeeds is an oracle; a failing call still happened
(the exception is raised by the client inside the call). -/

def R2_PUBLIC_URL : String := "https://files.example.com"

/-- `r2.upload_file` : `none` models a raised exception. -/
def r2_upload_file (uploadOk : Bool) (key : String) : Option String × List Event :=
  if uploadOk then (some (R2_PUBLIC_URL ++ "/" ++ key), [Event.r2Put key])
  else (none, [Event.r2Put key])

/-- `r2.delete_file` : `none` models a raised exception. -/
def r2_delete_file (deleteOk : Bool) (key : String) : Option Bool × List Event :=
  if deleteOk then (some true, [Event.r2Delete key]) else (none, [Event.r2Delete key])

/-- `r2.get_file` : `some (bytes, contentType)` or a raised exception. -/
def r2_get_file (getResult : Option (String × String)) (key : String) :
    Option (String × String) × List Event :=
  (getResult, [Event.r2Get key])

/-! ### File lifecycle coordinator (src/main.py)

Randomness (`uuid`), the clock, the session user and the oracles above
are parameters; each handler returns its HTTP-level outcome, the new
database state when it mutates one, and the external-call trace. -/

def BASE_URL : String := "http://localhost:8000"
def ALLOWED_EMAIL_DOMAIN : String := "assemblyai.com"

/-- Outcome of `POST /api/files`. -/
inductive UploadResponse where
  /-- a raised `HTTPException(status_code, detail)` -/
  | err (status : Nat) (detail : String)
  /-- the 200 JSON body -/
  | ok (id : Nat) (filename r2_key : String) (dub_url dub_key : Option String)
      (proxy_url : String)
deriving Repr, DecidableEq

/-- `main.upload_file` : `POST /api/files`.  `unique_id` stands for
`str(uuid.uuid4())[:8]`, `content_type` for `file.content_type` (`none`
when the client sent no content type), `now` for CURRENT_TIMESTAMP. -/
def upload_file (cfg : DubConfig) (r2ok : Bool) (dresp : DubCreateResponse)
    (db : DBState) (user_id filename content : String) (content_type : Option String)
    (unique_id : String) (now : Nat) : UploadResponse × DBState × List Event :=
  if filename = "" then (.err 400 "No filename provided", db, [])
  else
    let r2_key := unique_id ++ "-" ++ filename
    let ct := if truthy content_type then content_type.getD "" else "application/octet-stream"
    let r2call := r2_upload_file r2ok r2_key
    let ev1 := r2call.2
    match r2call.1 with
    | none => (.err 500 "Failed to upload file", db, ev1)
    | some _r2_url =>
      let created := db.create_file user_id filename r2_key ct content.length now
      let db_file := created.1
      let db1 := created.2
      let proxy_url := BASE_URL ++ "/f/" ++ r2_key
      let dubcall := create_short_link cfg dresp proxy_url (some filename)
      let ev2 := dubcall.2
      match dubcall.1 with
      | some d =>
        let db2 := db1.update_file_dub_url db_file.id d.shortLink (some d.id) (some d.key)
        (.ok db_file.id filename r2_key (some d.shortLink) (some d.key) proxy_url,
         db2, ev1 ++ [Event.dbCreate db_file.id] ++ ev2 ++ [Event.dbUpdateDubUrl db_file.id])
      | none =>
        (.ok db_file.id filename r2_key none none proxy_url, db1,
         ev1 ++ [Event.dbCreate db_file.id] ++ ev2)

/-- Outcome of `PUT /api/files/{file_id}/link`. -/
inductive RekeyResponse where
  | err (status : Nat) (detail : String)
  /-- the 200 JSON body `{success, dub_url, dub_key}` -/
  | ok (dub_url dub_key : String)
deriving Repr, DecidableEq

/-- `main.update_file_link` : `PUT /api/files/{file_id}/link`.
`body_key` is `body.get("key", "")`. -/
def update_file_link (cfg : DubConfig) (dresp : DubUpdateResponse) (db : DBState)
    (file_id : Nat) (body_key : String) : RekeyResponse × DBState × List Event :=
  match db.get_file_by_id file_id with
  | none => (.err 404 "File not found", db, [])
  | some file =>
    let new_key := pyStrip body_key
    if new_key = "" then (.err 400 "Key is required", db, [])
    else if !(truthy file.dub_link_id) then
      (.err 400 "This file does not have an editable short link", db, [])
    else
      let dub_link_id := file.dub_link_id.getD ""
      let upcall := update_short_link cfg dresp dub_link_id new_key
      let ev := upcall.2
      match upcall.1 with
      | none => (.err 500 "Failed to update short link. The key may already be taken.", db, ev)
      | some d =>
        (.ok d.shortLink d.key, db.update_file_dub_link file_id d.shortLink d.key,
         ev ++ [Event.dbUpdateDubLink file_id])

/-- Outcome of `DELETE /api/files/{file_id}`. -/
inductive DeleteResponse where
  | err (status : Nat) (detail : String)
  /-- the 200 JSON body `{"success": true}` -/
  | ok
deriving Repr, DecidableEq

/-- `main.delete_file` : `DELETE /api/files/{file_id}`.  The R2 delete
exception is swallowed (`# Continue anyway to clean up database`); the
dub delete result is ignored; the database delete is the last step. -/
def api_delete_file (cfg : DubConfig) (r2DeleteOk : Bool) (dubDeleteOk : Bool)
    (db : DBState) (file_id : Nat) : DeleteResponse × DBState × List Event :=
  match db.get_file_by_id file_id with
  | none => (.err 404 "File not found", db, [])
  | some file =>
    let ev1 := (r2_delete_file r2DeleteOk file.r2_key).2
    let ev2 :=
      if truthy file.dub_link_id then
        (delete_short_link cfg dubDeleteOk (file.dub_link_id.getD "")).2
      else []
    let db2 := (db.delete_file file_id).2
    (.ok, db2, ev1 ++ ev2 ++ [Event.dbDelete file_id])

/-- Outcome of `GET /f/{r2_key}`. -/
inductive ServeResponse where
  | redirect (status : Nat) (url : String)
  | err (status : Nat) (detail : String)
  /-- raw bytes with media type and Content-Disposition header -/
  | file (content media_type content_disposition : String)
deriving Repr, DecidableEq

/-- `main.serve_file` : `GET /f/{r2_key}`.  `user` is the session user
(`none` when unauthenticated); `getResult` is the R2 `get_object`
oracle. -/
def serve_file (user : Option String) (getResult : Option (String × String))
    (db : DBState) (r2_key : String) : ServeResponse × List Event :=
  match user with
  | none => (.redirect 302 ("/auth/login?next=/f/" ++ r2_key), [])
  | some _ =>
    match db.get_file_by_r2_key r2_key with
    | none => (.err 404 "File not found", [])
    | some file =>
      let getcall := r2_get_file getResult r2_key
      match getcall.1 with
      | some (content, content_type) =>
        (.file content content_type ("inline; filename=\"" ++ file.filename ++ "\""), getcall.2)
      | none => (.err 500 "Failed to retrieve file", getcall.2)

/-! ### Auth flow (src/main.py, `login` and `auth_callback`)

`main.login` builds the OAuth redirect from `BASE_URL` alone: the
incoming request's query string (in particular a `next` parameter) is
never read, so nothing of the originally requested path survives into
the OAuth flow. -/

/-- `main.login` : the `redirect_uri` handed to the identity provider,
as a function of the request's `next` query parameter (unused by the
source). -/
def login_redirect_uri (_next_param : Option String) : String :=
  BASE_URL ++ "/auth/callback"

structure UserInfo where
  sub : String
  email : String
  name : String
  picture : String
deriving Repr, DecidableEq

inductive CallbackResponse where
  /-- the 403 "Access Denied" HTML page naming the rejected email -/
  | denied (status : Nat) (email : String)
  /-- a `RedirectResponse` -/
  | redirect (status : Nat) (url : String)
  /-- a raised `HTTPException` -/
  | err (status : Nat) (detail : String)
deriving Repr, DecidableEq

/-- `main.auth_callback` : `GET /auth/callback`, as a function of the
`userinfo` the provider returned (`none` when absent; the inner 400 is
caught by the blanket `except` and re-raised as "Authentication
failed").  On success the session is set and the response is always a
redirect to `/` — independent of any `next` parameter. -/
def auth_callback (userinfo : Option UserInfo) : CallbackResponse :=
  match userinfo with
  | none => .err 400 "Authentication failed"
  | some ui =>
    if !(pyEndsWith ui.email ("@" ++ ALLOWED_EMAIL_DOMAIN)) then .denied 403 ui.email
    else .redirect 302 "/"

/-! ## Helper lemmas -/

theorem find_filter_ne_none (l : List FileRecord) (file_id : Nat) :
    (l.filter (fun f => f.id ≠ file_id)).find? (fun f => f.id = file_id) = none := by
  rw [List.find?_eq_none]
  intro x hx
  have := List.of_mem_filter hx
  simpa using this

theorem delete_file_get_none (db : DBState) (file_id : Nat) :
    ((db.delete_file file_id).2).get_file_by_id file_id = none := by
  simp only [DBState.delete_file, DBState.get_file_by_id]
  exact find_filter_ne_none db.files file_id

theorem r2_delete_file_trace (ok : Bool) (key : String) :
    (r2_delete_file ok key).2 = [Event.r2Delete key] := by
  cases ok <;> rfl

theorem r2_upload_file_trace (ok : Bool) (key : String) :
    (r2_upload_file ok key).2 = [Event.r2Put key] := by
  cases ok <;> rfl

/-! ## Claims -/

/-- C1: if the blob-store put fails during upload, the whole operation
aborts with a 500 upload-failed error, the record store is untouched and
no short-link call is made; when the put succeeds, the record creation
is the step immediately after the blob write. -/
theorem upload_blob_failure_aborts (cfg : DubConfig) (dresp : DubCreateResponse)
    (db : DBState) (user_id filename content : String) (content_type : Option String)
    (unique_id : String) (now : Nat) (hfn : filename ≠ "") :
    upload_file cfg false dresp db user_id filename content content_type unique_id now =
      (.err 500 "Failed to upload file", db, [Event.r2Put (unique_id ++ "-" ++ filename)])
    ∧ ∀ dresp2, ∃ rest,
        (upload_file cfg true dresp2 db user_id filename content content_type unique_id now).2.2 =
          Event.r2Put (unique_id ++ "-" ++ filename) :: Event.dbCreate db.nextId :: rest := by
  constructor
  · simp [upload_file, r2_upload_file, hfn]
  · intro dresp2
    simp only [upload_file, r2_upload_file, if_neg hfn, if_pos rfl]
    cases h : (create_short_link cfg dresp2 (BASE_URL ++ "/f/" ++ (unique_id ++ "-" ++ filename))
        (some filename)) with
    | mk res ev =>
      cases res <;> simp [h, DBState.create_file]

/-- C1 witness. -/
theorem upload_blob_failure_aborts_witness :
    upload_file ⟨some "k", some "d"⟩ false .err ⟨[], 1⟩ "u1" "a.txt" "xyz" none "12345678" 0 =
      (.err 500 "Failed to upload file", ⟨[], 1⟩, [Event.r2Put "12345678-a.txt"]) :=
  (upload_blob_failure_aborts ⟨some "k", some "d"⟩ .err ⟨[], 1⟩ "u1" "a.txt" "xyz" none
    "12345678" 0 (by decide)).1

/-- C2: deleting an existing file id removes the record-store entry even
when the blob-store delete fails; the record-store delete is the last
step of the trace and the response is success. -/
theorem delete_removes_record (cfg : DubConfig) (r2DeleteOk dubDeleteOk : Bool)
    (db : DBState) (file_id : Nat) (file : FileRecord)
    (hget : db.get_file_by_id file_id = some file) :
    (api_delete_file cfg r2DeleteOk dubDeleteOk db file_id).1 = .ok
    ∧ ((api_delete_file cfg r2DeleteOk dubDeleteOk db file_id).2.1).get_file_by_id file_id = none
    ∧ ∃ pre, (api_delete_file cfg r2DeleteOk dubDeleteOk db file_id).2.2 =
        pre ++ [Event.dbDelete file_id] := by
  refine ⟨?_, ?_, ?_⟩
  · simp [api_delete_file, hget]
  · simp only [api_delete_file, hget]
    exact delete_file_get_none db file_id
  · simp only [api_delete_file, hget]
    exact ⟨_, rfl⟩

/-- C2 witness: a one-record store, blob delete failing. -/
theorem delete_removes_record_witness :
    (api_delete_file ⟨some "k", some "d"⟩ false true
        ⟨[⟨1, "u1", "a.txt", "x-a.txt", none, none, none, "text/plain", 3, 0⟩], 2⟩ 1).1 = .ok
    ∧ ((api_delete_file ⟨some "k", some "d"⟩ false true
        ⟨[⟨1, "u1", "a.txt", "x-a.txt", none, none, none, "text/plain", 3, 0⟩], 2⟩ 1).2.1).get_file_by_id 1 = none
    ∧ ∃ pre, (api_delete_file ⟨some "k", some "d"⟩ false true
        ⟨[⟨1, "u1", "a.txt", "x-a.txt", none, none, none, "text/plain", 3, 0⟩], 2⟩ 1).2.2 =
        pre ++ [Event.dbDelete 1] :=
  delete_removes_record ⟨some "k", some "d"⟩ false true
    ⟨[⟨1, "u1", "a.txt", "x-a.txt", none, none, none, "text/plain", 3, 0⟩], 2⟩ 1
    ⟨1, "u1", "a.txt", "x-a.txt", none, none, none, "text/plain", 3, 0⟩ (by decide)

/-- C6: for an existing record with no short-link provider id, a rekey
request is rejected as a 400 client error with no network call and no
change to any state; when the request actually carries a key, the error
is the "not editable" one. -/
theorem rekey_without_link_rejected (cfg : DubConfig) (dresp : DubUpdateResponse)
    (db : DBState) (file_id : Nat) (file : FileRecord) (body_key : String)
    (hget : db.get_file_by_id file_id = some file)
    (hno : truthy file.dub_link_id = false) :
    (∃ d, update_file_link cfg dresp db file_id body_key = (.err 400 d, db, []))
    ∧ (pyStrip body_key ≠ "" →
        update_file_link cfg dresp db file_id body_key =
          (.err 400 "This file does not have an editable short link", db, [])) := by
  constructor
  · by_cases h : pyStrip body_key = ""
    · exact ⟨"Key is required", by simp [update_file_link, hget, h]⟩
    · exact ⟨"This file does not have an editable short link",
        by simp [update_file_link, hget, h, hno]⟩
  · intro h
    simp [update_file_link, hget, h, hno]

/-- C6 witness: one record without a dub link id, rekey request with key
`"newkey"`. -/
theorem rekey_without_link_rejected_witness :
    (∃ d, update_file_link ⟨some "k", some "d"⟩ .err
        ⟨[⟨1, "u1", "a.txt", "x-a.txt", none, none, none, "text/plain", 3, 0⟩], 2⟩ 1 "newkey" =
        (.err 400 d, ⟨[⟨1, "u1", "a.txt", "x-a.txt", none, none, none, "text/plain", 3, 0⟩], 2⟩, []))
    ∧ (pyStrip "newkey" ≠ "" →
        update_file_link ⟨some "k", some "d"⟩ .err
          ⟨[⟨1, "u1", "a.txt", "x-a.txt", none, none, none, "text/plain", 3, 0⟩], 2⟩ 1 "newkey" =
          (.err 400 "This file does not have an editable short link",
           ⟨[⟨1, "u1", "a.txt", "x-a.txt", none, none, none, "text/plain", 3, 0⟩], 2⟩, [])) :=
  rekey_without_link_rejected ⟨some "k", some "d"⟩ .err
    ⟨[⟨1, "u1", "a.txt", "x-a.txt", none, none, none, "text/plain", 3, 0⟩], 2⟩ 1
    ⟨1, "u1", "a.txt", "x-a.txt", none, none, none, "text/plain", 3, 0⟩ "newkey"
    (by decide) (by decide)

/-- C8: for an authenticated caller, an unknown storage key yields a 404;
a known key whose blob fetch fails yields a 500 distinct from the 404;
a successful fetch yields the bytes with an inline content-disposition
carrying the record's original filename. -/
theorem serve_file_outcomes (u : String) (db : DBState) (r2_key : String) :
    (db.get_file_by_r2_key r2_key = none →
      ∀ getResult, serve_file (some u) getResult db r2_key = (.err 404 "File not found", []))
    ∧ (∀ file, db.get_file_by_r2_key r2_key = some file →
        serve_file (some u) none db r2_key =
          (.err 500 "Failed to retrieve file", [Event.r2Get r2_key])
        ∧ (∀ content ct, serve_file (some u) (some (content, ct)) db r2_key =
            (.file content ct ("inline; filename=\"" ++ file.filename ++ "\""),
             [Event.r2Get r2_key]))
        ∧ ServeResponse.err 500 "Failed to retrieve file" ≠ .err 404 "File not found") := by
  refine ⟨?_, ?_⟩
  · intro h getResult
    simp [serve_file, h]
  · intro file h
    refine ⟨by simp [serve_file, h, r2_get_file], ?_, by decide⟩
    intro content ct
    simp [serve_file, h, r2_get_file]

/-- C8 witness: a one-record store, fetch failing and fetch succeeding. -/
theorem serve_file_outcomes_witness :
    serve_file (some "u1") none
        ⟨[⟨1, "u1", "a.txt", "x-a.txt", none, none, none, "text/plain", 3, 0⟩], 2⟩ "x-a.txt" =
      (.err 500 "Failed to retrieve file", [Event.r2Get "x-a.txt"])
    ∧ serve_file (some "u1") (some ("hey", "text/plain"))
        ⟨[⟨1, "u1", "a.txt", "x-a.txt", none, none, none, "text/plain", 3, 0⟩], 2⟩ "x-a.txt" =
      (.file "hey" "text/plain" "inline; filename=\"a.txt\"", [Event.r2Get "x-a.txt"]) := by
  have h := (serve_file_outcomes "u1"
      ⟨[⟨1, "u1", "a.txt", "x-a.txt", none, none, none, "text/plain", 3, 0⟩], 2⟩ "x-a.txt").2
      ⟨1, "u1", "a.txt", "x-a.txt", none, none, none, "text/plain", 3, 0⟩ (by decide)
  exact ⟨h.1, h.2.1 "hey" "text/plain"⟩

/-- C9: the unauthenticated `/f/{key}` redirect does carry
`next=/f/{key}` in its URL, but `main.login` never reads the request's
query parameters and `main.auth_callback` always redirects to `/` after
a successful login, so the user lands on `/`, not on `/f/{key}`: the
post-login destination is not preserved. -/
theorem login_next_param_dropped :
    (serve_file none none ⟨[], 1⟩ "report.pdf").1 =
      .redirect 302 "/auth/login?next=/f/report.pdf"
    ∧ login_redirect_uri (some "/f/report.pdf") = login_redirect_uri none
    ∧ auth_callback (some ⟨"sub1", "a@assemblyai.com", "A", "pic"⟩) = .redirect 302 "/"
    ∧ "/" ≠ "/f/report.pdf" := by
  refine ⟨rfl, rfl, by decide, by decide⟩

theorem guard_of_not_configured (cfg : DubConfig) (h : cfg.configured = false) :
    (!(truthy cfg.apiKey) || !(truthy cfg.domain)) = true := by
  cases ha : truthy cfg.apiKey <;> cases hd : truthy cfg.domain <;>
    simp_all [DubConfig.configured]

theorem guard_of_configured (cfg : DubConfig) (h : cfg.configured = true) :
    (!(truthy cfg.apiKey) || !(truthy cfg.domain)) = false := by
  cases ha : truthy cfg.apiKey <;> cases hd : truthy cfg.domain <;>
    simp_all [DubConfig.configured]

/-- C5 counterexample: with the short-link provider unconfigured (no
credentials), a rekey request is answered with a 500 error — so
unconfiguration *is* surfaced to the caller as an error on the rekey
operation. -/
theorem unconfigured_rekey_surfaces_error :
    update_file_link ⟨none, none⟩ .err
        ⟨[⟨1, "u1", "a.txt", "x-a.txt", some "du", some "lid", some "dk", "text/plain", 3, 0⟩], 2⟩
        1 "newkey" =
      (.err 500 "Failed to update short link. The key may already be taken.",
       ⟨[⟨1, "u1", "a.txt", "x-a.txt", some "du", some "lid", some "dk", "text/plain", 3, 0⟩], 2⟩,
       []) := by
  decide

/-- C5 (amended): with the provider unconfigured, an upload still
succeeds — silently, without short-link fields and without any
short-link call — and a delete still succeeds, but a rekey of a record
that owns a link fails with a 500 error (unconfiguration is surfaced on
that one operation). -/
theorem unconfigured_degradation (cfg : DubConfig) (hcfg : cfg.configured = false) :
    (∀ (dresp : DubCreateResponse) (db : DBState) (user_id filename content : String)
        (content_type : Option String) (unique_id : String) (now : Nat), filename ≠ "" →
      upload_file cfg true dresp db user_id filename content content_type unique_id now =
        (.ok db.nextId filename (unique_id ++ "-" ++ filename) none none
           (BASE_URL ++ "/f/" ++ (unique_id ++ "-" ++ filename)),
         (db.create_file user_id filename (unique_id ++ "-" ++ filename)
            (if truthy content_type then content_type.getD "" else "application/octet-stream")
            content.length now).2,
         [Event.r2Put (unique_id ++ "-" ++ filename), Event.dbCreate db.nextId]))
    ∧ (∀ (r2ok dubok : Bool) (db : DBState) (file_id : Nat) (file : FileRecord),
        db.get_file_by_id file_id = some file →
        (api_delete_file cfg r2ok dubok db file_id).1 = .ok)
    ∧ (∀ (dresp : DubUpdateResponse) (db : DBState) (file_id : Nat) (file : FileRecord)
        (body_key : String), db.get_file_by_id file_id = some file →
        truthy file.dub_link_id = true → pyStrip body_key ≠ "" →
      update_file_link cfg dresp db file_id body_key =
        (.err 500 "Failed to update short link. The key may already be taken.", db, [])) := by
  refine ⟨?_, ?_, ?_⟩
  · intro dresp db user_id filename content content_type unique_id now hfn
    simp [upload_file, r2_upload_file, create_short_link, guard_of_not_configured cfg hcfg, hfn,
      DBState.create_file]
  · intro r2ok dubok db file_id file hget
    simp [api_delete_file, hget]
  · intro dresp db file_id file body_key hget hlink hkey
    simp [update_file_link, hget, hkey, hlink, update_short_link,
      guard_of_not_configured cfg hcfg]

/-- C5 (amended) witness: unconfigured provider, a concrete upload and a
concrete rekey. -/
theorem unconfigured_degradation_witness :
    upload_file ⟨none, none⟩ true .err ⟨[], 1⟩ "u1" "a.txt" "xyz" none "12345678" 0 =
      (.ok 1 "a.txt" "12345678-a.txt" none none "http://localhost:8000/f/12345678-a.txt",
       (DBState.create_file ⟨[], 1⟩ "u1" "a.txt" "12345678-a.txt"
          "application/octet-stream" 3 0).2,
       [Event.r2Put "12345678-a.txt", Event.dbCreate 1])
    ∧ update_file_link ⟨none, none⟩ .err
        ⟨[⟨1, "u1", "a.txt", "x-a.txt", some "du", some "lid", some "dk", "text/plain", 3, 0⟩], 2⟩
        1 "newkey" =
      (.err 500 "Failed to update short link. The key may already be taken.",
       ⟨[⟨1, "u1", "a.txt", "x-a.txt", some "du", some "lid", some "dk", "text/plain", 3, 0⟩], 2⟩,
       []) :=
  ⟨(unconfigured_degradation ⟨none, none⟩ (by decide)).1 .err ⟨[], 1⟩ "u1" "a.txt" "xyz"
     none "12345678" 0 (by decide),
   (unconfigured_degradation ⟨none, none⟩ (by decide)).2.2 .err
     ⟨[⟨1, "u1", "a.txt", "x-a.txt", some "du", some "lid", some "dk", "text/plain", 3, 0⟩], 2⟩
     1 ⟨1, "u1", "a.txt", "x-a.txt", some "du", some "lid", some "dk", "text/plain", 3, 0⟩
     "newkey" (by decide) (by decide) (by decide)⟩

/-- C4 counterexample: uploading a file named `"!!!"` — whose name
normalizes to the empty key — with the provider configured still makes
the short-link network call, with the empty sanitized key in the
payload: link creation does not fail locally. -/
theorem empty_key_creation_still_calls_network :
    sanitize_key "!!!" = ""
    ∧ (upload_file ⟨some "k", some "dub.sh"⟩ true .err ⟨[], 1⟩ "u1" "!!!" "abc" none
        "deadbeef" 0).2.2 =
      [Event.r2Put "deadbeef-!!!", Event.dbCreate 1,
       Event.dubPost ⟨"http://localhost:8000/f/deadbeef-!!!", "dub.sh", some ""⟩] := by
  constructor
  · rfl
  · decide

/-- C4 (amended): a rekey whose key normalizes to the empty string fails
locally, with no network call and no state change; but link creation
during upload performs no such local check — with the provider
configured, the upload of a file whose name normalizes to the empty key
still sends the create call, carrying the empty sanitized key. -/
theorem empty_key_local_handling (cfg : DubConfig) :
    (∀ (dresp : DubUpdateResponse) (link_id new_key : String), sanitize_key new_key = "" →
      update_short_link cfg dresp link_id new_key = (none, []))
    ∧ (∀ (dresp : DubUpdateResponse) (db : DBState) (file_id : Nat) (file : FileRecord)
        (body_key : String), db.get_file_by_id file_id = some file →
        truthy file.dub_link_id = true → pyStrip body_key ≠ "" →
        sanitize_key (pyStrip body_key) = "" →
      update_file_link cfg dresp db file_id body_key =
        (.err 500 "Failed to update short link. The key may already be taken.", db, []))
    ∧ (∀ (dresp : DubCreateResponse) (db : DBState)
        (user_id filename content : String) (content_type : Option String)
        (unique_id : String) (now : Nat), cfg.configured = true → filename ≠ "" →
        sanitize_key filename = "" →
      Event.dubPost
          ⟨BASE_URL ++ "/f/" ++ (unique_id ++ "-" ++ filename), cfg.domain.getD "", some ""⟩ ∈
        (upload_file cfg true dresp db user_id filename content content_type
          unique_id now).2.2) := by
  refine ⟨?_, ?_, ?_⟩
  · intro dresp link_id new_key hsan
    by_cases hc : (!(truthy cfg.apiKey) || !(truthy cfg.domain)) = true
    · simp [update_short_link, hc]
    · simp at hc
      simp [update_short_link, hc, hsan]
  · intro dresp db file_id file body_key hget hlink hkey hsan
    by_cases hc : (!(truthy cfg.apiKey) || !(truthy cfg.domain)) = true
    · simp [update_file_link, hget, hkey, hlink, update_short_link, hc]
    · simp at hc
      simp [update_file_link, hget, hkey, hlink, update_short_link, hc, hsan]
  · intro dresp db user_id filename content content_type unique_id now hcfg hfn hsan
    have hg := guard_of_configured cfg hcfg
    have htr : truthy (some filename) = true := by
      simpa [truthy] using hfn
    cases dresp with
    | ok data =>
      simp [upload_file, r2_upload_file, create_short_link, hg, hfn, htr, hsan]
    | err =>
      simp [upload_file, r2_upload_file, create_short_link, hg, hfn, htr, hsan]

/-- C4 (amended) witness: configured provider; rekey to `"!!!"` fails
locally; upload of `"!!!"` sends the create call with the empty key. -/
theorem empty_key_local_handling_witness :
    update_short_link ⟨some "k", some "dub.sh"⟩ .err "lid" "!!!" = (none, [])
    ∧ Event.dubPost ⟨"http://localhost:8000/f/deadbeef-!!!", "dub.sh", some ""⟩ ∈
        (upload_file ⟨some "k", some "dub.sh"⟩ true .err ⟨[], 1⟩ "u1" "!!!" "abc" none
          "deadbeef" 0).2.2 :=
  ⟨(empty_key_local_handling ⟨some "k", some "dub.sh"⟩).1 .err "lid" "!!!" (by rfl),
   (empty_key_local_handling ⟨some "k", some "dub.sh"⟩).2.2 .err ⟨[], 1⟩ "u1" "!!!" "abc"
     none "deadbeef" 0 (by decide) (by decide) (by rfl)⟩

theorem zip_map_self {α β : Type} (g : α → β) (l : List α) (p : α × β)
    (hp : p ∈ l.zip (l.map g)) : p.2 = g p.1 := by
  induction l with
  | nil => simp at hp
  | cons a t ih =>
    simp only [List.map_cons, List.zip_cons_cons, List.mem_cons] at hp
    rcases hp with h | h
    · subst h; rfl
    · exact ih h

/-- C10: a successful rekey changes only the short-link url and key of
the targeted record; its other fields — id, owner, filename, storage
key, short-link provider id, content type, size, creation timestamp —
are unchanged, and every other record is unchanged. -/
theorem rekey_frame (cfg : DubConfig) (d : DubUpdateResult) (db : DBState)
    (file_id : Nat) (file : FileRecord) (body_key : String)
    (hget : db.get_file_by_id file_id = some file)
    (hlink : truthy file.dub_link_id = true)
    (hkey : pyStrip body_key ≠ "")
    (hcfg : cfg.configured = true)
    (hsan : sanitize_key (pyStrip body_key) ≠ "") :
    (update_file_link cfg (.ok d) db file_id body_key).1 = .ok d.shortLink d.key
    ∧ ((update_file_link cfg (.ok d) db file_id body_key).2.1).files =
        db.files.map (fun f => if f.id = file_id then
          { f with dub_url := some d.shortLink, dub_key := some d.key } else f)
    ∧ ∀ p ∈ db.files.zip ((update_file_link cfg (.ok d) db file_id body_key).2.1).files,
        (p.1.id ≠ file_id → p.2 = p.1)
        ∧ (p.1.id = file_id →
            p.2.id = p.1.id ∧ p.2.user_id = p.1.user_id ∧ p.2.filename = p.1.filename
            ∧ p.2.r2_key = p.1.r2_key ∧ p.2.dub_link_id = p.1.dub_link_id
            ∧ p.2.content_type = p.1.content_type ∧ p.2.size_bytes = p.1.size_bytes
            ∧ p.2.created_at = p.1.created_at
            ∧ p.2.dub_url = some d.shortLink ∧ p.2.dub_key = some d.key) := by
  have hg := guard_of_configured cfg hcfg
  have hred : update_file_link cfg (.ok d) db file_id body_key =
      (.ok d.shortLink d.key, db.update_file_dub_link file_id d.shortLink d.key,
       [Event.dubPatch (file.dub_link_id.getD "") (sanitize_key (pyStrip body_key)),
        Event.dbUpdateDubLink file_id]) := by
    simp [update_file_link, hget, hkey, hlink, update_short_link, hg, hsan]
  refine ⟨by rw [hred], by rw [hred]; rfl, ?_⟩
  intro p hp
  rw [hred] at hp
  have h2 := zip_map_self _ db.files p hp
  constructor
  · intro hne
    rw [h2]
    simp [hne]
  · intro heq
    rw [h2]
    simp [heq]

/-- C10 witness: a two-record store; rekeying record 1 leaves record 2
and record 1's other fields unchanged. -/
theorem rekey_frame_witness :
    (update_file_link ⟨some "k", some "dub.sh"⟩ (.ok ⟨"https://dub.sh/new", "new"⟩)
        ⟨[⟨1, "u1", "a.txt", "x-a.txt", some "du", some "lid", some "dk", "text/plain", 3, 0⟩,
          ⟨2, "u2", "b.txt", "y-b.txt", none, none, none, "text/plain", 4, 1⟩], 3⟩
        1 "My New Key").1 = .ok "https://dub.sh/new" "new"
    ∧ ((update_file_link ⟨some "k", some "dub.sh"⟩ (.ok ⟨"https://dub.sh/new", "new"⟩)
        ⟨[⟨1, "u1", "a.txt", "x-a.txt", some "du", some "lid", some "dk", "text/plain", 3, 0⟩,
          ⟨2, "u2", "b.txt", "y-b.txt", none, none, none, "text/plain", 4, 1⟩], 3⟩
        1 "My New Key").2.1).files =
      [⟨1, "u1", "a.txt", "x-a.txt", some "https://dub.sh/new", some "lid", some "new",
         "text/plain", 3, 0⟩,
       ⟨2, "u2", "b.txt", "y-b.txt", none, none, none, "text/plain", 4, 1⟩] := by
  have h := rekey_frame ⟨some "k", some "dub.sh"⟩ ⟨"https://dub.sh/new", "new"⟩
    ⟨[⟨1, "u1", "a.txt", "x-a.txt", some "du", some "lid", some "dk", "text/plain", 3, 0⟩,
      ⟨2, "u2", "b.txt", "y-b.txt", none, none, none, "text/plain", 4, 1⟩], 3⟩
    1 ⟨1, "u1", "a.txt", "x-a.txt", some "du", some "lid", some "dk", "text/plain", 3, 0⟩
    "My New Key" (by decide) (by decide) (by decide) (by decide) (by decide)
  refine ⟨h.1, ?_⟩
  rw [h.2.1]
  decide

theorem truthy_isSome (o : Option String) (h : truthy o = true) : o.isSome = true := by
  cases o <;> simp_all [truthy]

theorem find_id_unique (l : List FileRecord) (i : Nat) (file x : FileRecord)
    (hids : (l.map FileRecord.id).Nodup)
    (hfind : l.find? (fun f => f.id = i) = some file)
    (hx : x ∈ l) (hxi : x.id = i) : x = file := by
  have hfmem : file ∈ l := List.mem_of_find?_eq_some hfind
  have hfid : file.id = i := by simpa using List.find?_some hfind
  exact List.inj_on_of_nodup_map hids hx hfmem (by rw [hxi, hfid])

/-- C7: upload, rekey and delete all preserve the invariant that
`dub_link_id` and `dub_key` are both present or both absent, for every
record of the store.  (`hids` reflects that `id` is a PRIMARY KEY.) -/
theorem lifecycle_preserves_link_invariant (db : DBState)
    (hids : (db.files.map FileRecord.id).Nodup)
    (hdb : ∀ f ∈ db.files, linkInv f = true) :
    (∀ (cfg : DubConfig) (r2ok : Bool) (dresp : DubCreateResponse)
        (user_id filename content : String) (content_type : Option String)
        (unique_id : String) (now : Nat),
      ∀ f ∈ ((upload_file cfg r2ok dresp db user_id filename content content_type
          unique_id now).2.1).files, linkInv f = true)
    ∧ (∀ (cfg : DubConfig) (dresp : DubUpdateResponse) (file_id : Nat) (body_key : String),
      ∀ f ∈ ((update_file_link cfg dresp db file_id body_key).2.1).files, linkInv f = true)
    ∧ (∀ (cfg : DubConfig) (r2ok dubok : Bool) (file_id : Nat),
      ∀ f ∈ ((api_delete_file cfg r2ok dubok db file_id).2.1).files, linkInv f = true) := by
  refine ⟨?_, ?_, ?_⟩
  · intro cfg r2ok dresp user_id filename content content_type unique_id now
    by_cases hfn : filename = ""
    · simpa [upload_file, hfn] using hdb
    · cases r2ok with
      | false => simpa [upload_file, r2_upload_file, hfn] using hdb
      | true =>
        cases hdub : (create_short_link cfg dresp
            (BASE_URL ++ "/f/" ++ (unique_id ++ "-" ++ filename)) (some filename)).1 with
        | none =>
          intro f hf
          simp [upload_file, r2_upload_file, hfn, hdub, DBState.create_file] at hf
          rcases hf with hf | hf
          · exact hdb f hf
          · rw [hf]; rfl
        | some d =>
          intro f hf
          simp [upload_file, r2_upload_file, hfn, hdub, DBState.update_file_dub_url,
            DBState.create_file] at hf
          rcases hf with ⟨x, hx, hfx⟩ | hf
          · by_cases hid : x.id = db.nextId
            · rw [if_pos hid] at hfx
              rw [← hfx]; rfl
            · rw [if_neg hid] at hfx
              rw [← hfx]; exact hdb x hx
          · rw [hf]; rfl
  · intro cfg dresp file_id body_key
    cases hget : db.get_file_by_id file_id with
    | none => simpa [update_file_link, hget] using hdb
    | some file =>
      by_cases hkey : pyStrip body_key = ""
      · simpa [update_file_link, hget, hkey] using hdb
      · by_cases hlink : truthy file.dub_link_id = true
        · cases hup : (update_short_link cfg dresp (file.dub_link_id.getD "")
              (pyStrip body_key)).1 with
          | none => simpa [update_file_link, hget, hkey, hlink, hup] using hdb
          | some d =>
            intro f hf
            simp [update_file_link, hget, hkey, hlink, hup,
              DBState.update_file_dub_link] at hf
            rcases hf with ⟨x, hx, hfx⟩
            by_cases hid : x.id = file_id
            · rw [if_pos hid] at hfx
              rw [← hfx]
              have hxfile : x = file :=
                find_id_unique db.files file_id file x hids hget hx hid
              have hsome : file.dub_link_id.isSome = true :=
                truthy_isSome _ hlink
              simp [linkInv, hxfile, hsome]
            · rw [if_neg hid] at hfx
              rw [← hfx]; exact hdb x hx
        · have hlink' : truthy file.dub_link_id = false := by
            cases h : truthy file.dub_link_id
            · rfl
            · exact absurd h hlink
          simpa [update_file_link, hget, hkey, hlink'] using hdb
  · intro cfg r2ok dubok file_id
    cases hget : db.get_file_by_id file_id with
    | none => simpa [api_delete_file, hget] using hdb
    | some file =>
      intro f hf
      simp only [api_delete_file, hget, DBState.delete_file, List.mem_filter] at hf
      exact hdb f hf.1

/-- C7 witness: a store satisfying the invariant; the record produced by
a rekey still satisfies it. -/
theorem lifecycle_preserves_link_invariant_witness :
    linkInv ⟨1, "u1", "a.txt", "x-a.txt", some "https://dub.sh/new", some "lid", some "new",
      "text/plain", 3, 0⟩ = true :=
  (lifecycle_preserves_link_invariant
    ⟨[⟨1, "u1", "a.txt", "x-a.txt", some "du", some "lid", some "dk", "text/plain", 3, 0⟩], 2⟩
    (by decide) (by decide)).2.1 ⟨some "k", some "dub.sh"⟩ (.ok ⟨"https://dub.sh/new", "new"⟩)
    1 "My New Key"
    ⟨1, "u1", "a.txt", "x-a.txt", some "https://dub.sh/new", some "lid", some "new",
      "text/plain", 3, 0⟩ (by decide)

/-! ### Lemmas about the key-normalization pipeline -/

/-- The no-consecutive-hyphens relation on adjacent characters. -/
def NoHH (a b : Char) : Prop := ¬(a = '-' ∧ b = '-')

theorem noHH_symm (a b : Char) (h : NoHH a b) : NoHH b a :=
  fun hc => h ⟨hc.2, hc.1⟩

theorem mem_collapseHyphens : ∀ (l : List Char) (c : Char), c ∈ collapseHyphens l → c ∈ l
  | [], c, h => by simp [collapseHyphens] at h
  | [_], c, h => by simpa [collapseHyphens] using h
  | a :: b :: rest, c, h => by
    simp only [collapseHyphens] at h
    by_cases hab : (a = '-' && b = '-') = true
    · rw [if_pos hab] at h
      exact List.mem_cons_of_mem a (mem_collapseHyphens (b :: rest) c h)
    · rw [if_neg hab] at h
      rcases List.mem_cons.mp h with h | h
      · exact h ▸ List.mem_cons_self a _
      · exact List.mem_cons_of_mem a (mem_collapseHyphens (b :: rest) c h)

theorem collapseHyphens_cons : ∀ (a : Char) (l : List Char),
    ∃ t, collapseHyphens (a :: l) = a :: t
  | _, [] => ⟨[], rfl⟩
  | a, b :: rest => by
    by_cases hab : (a = '-' && b = '-') = true
    · obtain ⟨t, ht⟩ := collapseHyphens_cons b rest
      refine ⟨t, ?_⟩
      obtain ⟨ha, hb⟩ : a = '-' ∧ b = '-' := by simpa using hab
      rw [show collapseHyphens (a :: b :: rest) = collapseHyphens (b :: rest) by
        simp only [collapseHyphens, if_pos hab], ht, ha, hb]
    · exact ⟨collapseHyphens (b :: rest), by simp only [collapseHyphens, if_neg hab]⟩

theorem chain'_collapseHyphens : ∀ l : List Char, List.Chain' NoHH (collapseHyphens l)
  | [] => by simp [collapseHyphens]
  | [c] => List.chain'_singleton c
  | a :: b :: rest => by
    by_cases hab : (a = '-' && b = '-') = true
    · rw [show collapseHyphens (a :: b :: rest) = collapseHyphens (b :: rest) by
        simp only [collapseHyphens, if_pos hab]]
      exact chain'_collapseHyphens (b :: rest)
    · obtain ⟨t, ht⟩ := collapseHyphens_cons b rest
      have hch := chain'_collapseHyphens (b :: rest)
      rw [ht] at hch
      have hnab : NoHH a b := by
        intro hc
        exact hab (by simp [hc.1, hc.2])
      simp only [collapseHyphens, if_neg hab, ht]
      exact List.chain'_cons.mpr ⟨hnab, hch⟩

theorem dropWhile_head_false (p : Char → Bool) :
    ∀ (l : List Char) (c : Char) (t : List Char), l.dropWhile p = c :: t → p c = false
  | [], c, t, h => by simp at h
  | a :: l, c, t, h => by
    by_cases ha : p a = true
    · rw [List.dropWhile_cons_of_pos ha] at h
      exact dropWhile_head_false p l c t h
    · rw [List.dropWhile_cons_of_neg ha] at h
      cases h
      exact Bool.eq_false_iff.mpr ha

theorem stripHyphens_subset (l : List Char) : ∀ c ∈ stripHyphens l, c ∈ l := by
  intro c hc
  simp only [stripHyphens, List.mem_reverse] at hc
  have h1 := (List.dropWhile_suffix
    (fun c => decide (c = '-'))).subset hc
  rw [List.mem_reverse] at h1
  exact (List.dropWhile_suffix (fun c => decide (c = '-'))).subset h1

theorem chain'_stripHyphens (l : List Char) (h : List.Chain' NoHH l) :
    List.Chain' NoHH (stripHyphens l) := by
  have h1 : List.Chain' NoHH (l.dropWhile (fun c => c = '-')) :=
    h.suffix (List.dropWhile_suffix _)
  have h2 : List.Chain' NoHH ((l.dropWhile (fun c => c = '-')).reverse) :=
    List.chain'_reverse.mpr (h1.imp noHH_symm)
  have h3 : List.Chain' NoHH
      (((l.dropWhile (fun c => c = '-')).reverse).dropWhile (fun c => c = '-')) :=
    h2.suffix (List.dropWhile_suffix _)
  exact List.chain'_reverse.mpr (h3.imp noHH_symm)

theorem stripHyphens_head_ne (l : List Char) (c : Char) (t : List Char)
    (h : stripHyphens l = c :: t) : c ≠ '-' := by
  obtain ⟨s, hs⟩ := List.dropWhile_suffix (p := fun c => decide (c = '-'))
    (l := (l.dropWhile (fun c => c = '-')).reverse)
  have hd : l.dropWhile (fun c => c = '-') = (c :: t) ++ s.reverse := by
    have := congrArg List.reverse hs
    simp only [List.reverse_append, List.reverse_reverse] at this
    rw [← this, ← h]
    simp [stripHyphens]
  have := dropWhile_head_false (fun c => decide (c = '-')) l c (t ++ s.reverse)
    (by simpa using hd)
  simpa using this

theorem char_toNat_ofNat_le (n : Nat) (h : n ≤ 122) : (Char.ofNat n).toNat = n := by
  have hv : n.isValidChar := Or.inl (by omega)
  simp [Char.ofNat, hv]
  rfl

theorem asciiLower_lowerKeyChar (c : Char) (h : isKeyChar c = true) :
    isLowerKeyChar (asciiLower c) = true := by
  by_cases hr : (65 ≤ c.toNat && c.toNat ≤ 90) = true
  · obtain ⟨h65, h90⟩ : 65 ≤ c.toNat ∧ c.toNat ≤ 90 := by simpa using hr
    have hround : (Char.ofNat (c.toNat + 32)).toNat = c.toNat + 32 :=
      char_toNat_ofNat_le _ (by omega)
    simp only [asciiLower, if_pos hr, isLowerKeyChar, hround]
    have : 97 ≤ c.toNat + 32 ∧ c.toNat + 32 ≤ 122 := by omega
    simp [this.1, this.2]
  · simp only [asciiLower, if_neg hr]
    simp only [isKeyChar, Bool.or_eq_true, Bool.and_eq_true, decide_eq_true_eq] at h
    simp only [isLowerKeyChar, Bool.or_eq_true, Bool.and_eq_true, decide_eq_true_eq]
    rcases h with ((h | h) | h) | h
    · exact Or.inl (Or.inl ⟨by omega, by omega⟩)
    · exfalso
      apply hr
      simp [h.1, h.2]
    · exact Or.inl (Or.inr ⟨by omega, by omega⟩)
    · exact Or.inr h

theorem asciiLower_eq_hyphen (c : Char) (h : asciiLower c = '-') : c = '-' := by
  by_cases hr : (65 ≤ c.toNat && c.toNat ≤ 90) = true
  · exfalso
    obtain ⟨h65, h90⟩ : 65 ≤ c.toNat ∧ c.toNat ≤ 90 := by simpa using hr
    have hround : (Char.ofNat (c.toNat + 32)).toNat = c.toNat + 32 :=
      char_toNat_ofNat_le _ (by omega)
    have ht := congrArg Char.toNat h
    simp only [asciiLower, if_pos hr, hround] at ht
    have h45 : ('-' : Char).toNat = 45 := by decide
    omega
  · have hid : asciiLower c = c := by simp only [asciiLower, if_neg hr]
    rwa [hid] at h

theorem replaceSpecial_keyChar (l : List Char) : ∀ c ∈ replaceSpecial l, isKeyChar c = true := by
  intro c hc
  simp only [replaceSpecial, List.mem_map] at hc
  obtain ⟨x, _, hx⟩ := hc
  by_cases h : isKeyChar x = true
  · rw [if_pos h] at hx
    rw [← hx]; exact h
  · rw [if_neg h] at hx
    rw [← hx]; decide

/-- C3 counterexample: the filename `"!!!"` normalizes to the empty key
(refuting non-emptiness), and a filename of 49 `a`s, a hyphen and a `b`
normalizes — after the final truncation — to a key with a trailing
hyphen (refuting no-trailing-hyphen). -/
theorem sanitize_key_counterexample :
    sanitize_key "!!!" = ""
    ∧ sanitize_key (String.mk (List.replicate 49 'a' ++ ['-', 'b'])) =
        String.mk (List.replicate 49 'a' ++ ['-'])
    ∧ (String.mk (List.replicate 49 'a' ++ ['-'])).data.getLast? = some '-' := by
  refine ⟨by decide, by decide, by decide⟩

/-- C3 (amended): for every filename the derived short-link key contains
only lowercase letters, digits and hyphens, is at most 50 characters
long, and has no leading and no consecutive hyphens; it can, however,
be empty (for a filename with no alphanumeric stem) and the final
truncation step can leave a trailing hyphen.  In particular
`"My Report (Final).pdf"` normalizes to `"my-report-final"`. -/
theorem sanitize_key_amended :
    (∀ s : String,
      (sanitize_key s).data.length ≤ 50
      ∧ (∀ c ∈ (sanitize_key s).data, isLowerKeyChar c = true)
      ∧ (∀ c ∈ (sanitize_key s).data.head?, c ≠ '-')
      ∧ List.Chain' NoHH (sanitize_key s).data)
    ∧ sanitize_key "My Report (Final).pdf" = "my-report-final" := by
  constructor
  · intro s
    have hdata : (sanitize_key s).data = sanitizeChars s.data := rfl
    refine ⟨?_, ?_, ?_, ?_⟩
    · rw [hdata]
      simp only [sanitizeChars]
      exact List.length_take_le 50 _
    · intro c hc
      rw [hdata] at hc
      simp only [sanitizeChars] at hc
      have hc1 := List.take_subset 50 _ hc
      simp only [List.mem_map] at hc1
      obtain ⟨x, hx, hxc⟩ := hc1
      have hx1 := stripHyphens_subset _ x hx
      have hx2 := mem_collapseHyphens _ x hx1
      have hx3 := replaceSpecial_keyChar _ x hx2
      rw [← hxc]
      exact asciiLower_lowerKeyChar x hx3
    · intro c hc
      rw [hdata] at hc
      simp only [sanitizeChars] at hc
      cases hS : stripHyphens (collapseHyphens (replaceSpecial (splitextRoot s.data))) with
      | nil => rw [hS] at hc; simp at hc
      | cons a t =>
        rw [hS] at hc
        simp only [List.map_cons] at hc
        rw [show (50 : Nat) = 49 + 1 from rfl, List.take_succ_cons] at hc
        simp only [List.head?_cons, Option.mem_def, Option.some.injEq] at hc
        intro hcontra
        rw [hcontra] at hc
        exact stripHyphens_head_ne _ a t hS (asciiLower_eq_hyphen a hc)
    · rw [hdata]
      simp only [sanitizeChars]
      have h1 := chain'_collapseHyphens (replaceSpecial (splitextRoot s.data))
      have h2 := chain'_stripHyphens _ h1
      have h3 : List.Chain' NoHH
          ((stripHyphens (collapseHyphens (replaceSpecial (splitextRoot s.data)))).map
            asciiLower) := by
        rw [List.chain'_map]
        refine h2.imp ?_
        intro a b hab hc
        exact hab ⟨asciiLower_eq_hyphen a hc.1, asciiLower_eq_hyphen b hc.2⟩
      set L := (stripHyphens (collapseHyphens (replaceSpecial (splitextRoot s.data)))).map
        asciiLower with hL
      have := List.take_append_drop 50 L
      rw [← this] at h3
      exact (List.chain'_append.mp h3).1
  · decide

/-- C3 (amended) witness: the properties evaluated at
`"My Report (Final).pdf"`. -/
theorem sanitize_key_amended_witness :
    (sanitize_key "My Report (Final).pdf").data.length ≤ 50
    ∧ (∀ c ∈ (sanitize_key "My Report (Final).pdf").data, isLowerKeyChar c = true)
    ∧ sanitize_key "My Report (Final).pdf" = "my-report-final" :=
  ⟨(sanitize_key_amended.1 "My Report (Final).pdf").1,
   (sanitize_key_amended.1 "My Report (Final).pdf").2.1,
   sanitize_key_amended.2⟩

end PublicLinks
